import Mathlib

/-!
A shallow embedding of the custody-verification core of a BTC↔ETH bridge
(`btc_utils.rs`, `filter_p2sh_deposit_txs.rs`, `get_deposit_info_hash_map.rs`,
`eth_init_utils.rs`), together with theorems settling the specification's
claims about it.

Bytes are modelled as `List Nat` (each entry a byte value), machine integers
as `Nat` with explicit `% 2^64` where u64/usize overflow matters, fallible
operations as `Except AppError` and Rust panics as `Option` (`none` = panic).
Cryptographic primitives supplied by external crates (`hash160`, `txid`,
`serde_json`, consensus block codecs, base58) are passed in as explicit
function parameters: the repository's code is polymorphic in them.
-/

set_option autoImplicit false

namespace PTokens

/-- Error type mirroring the crate's `AppError`. -/
inductive AppError where
  | Custom (msg : String)
  | SerdeJsonError
  | HashError
  | BlockDecodeError
  | Base58Error
  deriving DecidableEq, Repr

/-- The bitcoin `Network` enum of the vendored bitcoin crate: the `match` in
`convert_btc_network_to_bytes` is exhaustive with exactly these three arms. -/
inductive Network where
  | Bitcoin
  | Testnet
  | Regtest
  deriving DecidableEq, Repr

/-- A 32-byte digest (`sha256d::Hash`). -/
abbrev Hash32 : Type := { l : List Nat // l.length = 32 }

/-- `sha256d::Hash::from_slice`: succeeds exactly on 32-byte inputs. -/
def hash32_from_slice (l : List Nat) : Option Hash32 :=
  if h : l.length = 32 then some ⟨l, h⟩ else none

/-- A bitcoin `Script`: its raw byte string. -/
structure Script where
  bytes : List Nat
  deriving DecidableEq, Repr

/-- Opcode byte values used by the embedded code. -/
def OP_DUP : Nat := 118
def OP_HASH160 : Nat := 169
def OP_EQUALVERIFY : Nat := 136
def OP_EQUAL : Nat := 135
def OP_CHECKSIG : Nat := 172
def OP_DROP : Nat := 117
def OP_PUSHBYTES_20 : Nat := 20
def OP_PUSHDATA1 : Nat := 76
def OP_PUSHDATA2 : Nat := 77
def OP_PUSHDATA4 : Nat := 78

/-- `Script::is_p2sh` of the bitcoin crate: 23 bytes, `OP_HASH160`,
a 20-byte push, the hash, `OP_EQUAL`. -/
def Script.is_p2sh (s : Script) : Bool :=
  s.bytes.length == 23 &&
  s.bytes.get? 0 == some OP_HASH160 &&
  s.bytes.get? 1 == some OP_PUSHBYTES_20 &&
  s.bytes.get? 22 == some OP_EQUAL

/-- `Script::is_p2pkh` of the bitcoin crate. -/
def Script.is_p2pkh (s : Script) : Bool :=
  s.bytes.length == 25 &&
  s.bytes.get? 0 == some OP_DUP &&
  s.bytes.get? 1 == some OP_HASH160 &&
  s.bytes.get? 2 == some OP_PUSHBYTES_20 &&
  s.bytes.get? 23 == some OP_EQUALVERIFY &&
  s.bytes.get? 24 == some OP_CHECKSIG

/-- The data-push encoding written by the bitcoin crate's
`script::Builder::push_slice`: a bare length byte below `OP_PUSHDATA1`,
otherwise an `OP_PUSHDATA{1,2,4}` prefix with a little-endian length.
(The crate panics on pushes of 2^32 bytes or more; such inputs are
outside the modelled domain.) -/
def pushdata_encoding (data : List Nat) : List Nat :=
  if data.length < 76 then data.length :: data
  else if data.length < 256 then OP_PUSHDATA1 :: data.length :: data
  else if data.length < 65536 then
    OP_PUSHDATA2 :: data.length % 256 :: data.length / 256 :: data
  else
    OP_PUSHDATA4 :: data.length % 256 :: data.length / 256 % 256 ::
      data.length / 65536 % 256 :: data.length / 16777216 % 256 :: data

/-- The bitcoin crate's `script::Builder`: an accumulating byte buffer. -/
structure Builder where
  bytes : List Nat
  deriving DecidableEq, Repr

def Builder.new : Builder := ⟨[]⟩

def Builder.push_slice (b : Builder) (data : List Nat) : Builder :=
  ⟨b.bytes ++ pushdata_encoding data⟩

def Builder.push_opcode (b : Builder) (op : Nat) : Builder :=
  ⟨b.bytes ++ [op]⟩

def Builder.into_script (b : Builder) : Script := ⟨b.bytes⟩

/-- An address payload: the bitcoin crate's `Payload` (segwit payloads are
unused by this core, which does not support segwit). -/
inductive Payload where
  | pubkeyHash (h : List Nat)
  | scriptHash (h : List Nat)
  deriving DecidableEq, Repr

/-- The bitcoin crate's `Address`: payload plus network. -/
structure BtcAddress where
  network : Network
  payload : Payload
  deriving DecidableEq, Repr

/-- `Address::p2sh`: the script-hash address of a script, via the external
`hash160` primitive (passed in as a parameter). -/
def btcAddress_p2sh (hash160 : List Nat → List Nat) (script : Script)
    (network : Network) : BtcAddress :=
  ⟨network, .scriptHash (hash160 script.bytes)⟩

/-- `Address::from_script`: recovers an address from a p2pkh or p2sh
`script_pubkey` by slicing the embedded hash out of the script; other
script forms yield no address. -/
def btcAddress_from_script (script : Script) (network : Network) :
    Option BtcAddress :=
  if script.is_p2pkh then
    some ⟨network, .pubkeyHash ((script.bytes.drop 3).take 20)⟩
  else if script.is_p2sh then
    some ⟨network, .scriptHash ((script.bytes.drop 2).take 20)⟩
  else
    none

/-- `get_p2sh_redeem_script_sig` (btc_utils.rs:104-123): pushes the
`eth_address_and_nonce_hash`, drops it, pushes the enclave public key and
demands a signature check against it. -/
def get_p2sh_redeem_script_sig (utxo_spender_pub_key_slice : List Nat)
    (eth_address_and_nonce_hash : Hash32) : Script :=
  ((((Builder.new.push_slice eth_address_and_nonce_hash.val).push_opcode
      OP_DROP).push_slice utxo_spender_pub_key_slice).push_opcode
      OP_CHECKSIG).into_script

/-- `DepositAddressInfo` (btc_types): nonce, destination ETH address, the
sha256d digest of (ETH address, nonce), and the derived BTC deposit
address. -/
structure DepositAddressInfo where
  nonce : Nat
  btc_deposit_address : BtcAddress
  eth_address : List Nat
  eth_address_and_nonce_hash : Hash32
  deriving DecidableEq

/-- `DepositInfoHashMap = HashMap<BtcAddress, DepositAddressInfo>`,
modelled as an association list: `insert` conses (shadowing any earlier
binding, exactly the observable overwrite semantics of `HashMap::insert`)
and `get` returns the most recent binding. -/
abbrev DepositInfoHashMap : Type := List (BtcAddress × DepositAddressInfo)

/-- `HashMap::new()`. -/
def hm_empty : DepositInfoHashMap := []

/-- `HashMap::insert` (the returned previous value is discarded by all
call sites). -/
def hm_insert (m : DepositInfoHashMap) (k : BtcAddress)
    (v : DepositAddressInfo) : DepositInfoHashMap :=
  (k, v) :: m

/-- `HashMap::get`. -/
def hm_get (m : DepositInfoHashMap) (k : BtcAddress) :
    Option DepositAddressInfo :=
  (List.find? (fun p => p.1 = k) m).map (fun p => p.2)

/-- `HashMap::contains_key`. -/
def hm_contains_key (m : DepositInfoHashMap) (k : BtcAddress) : Bool :=
  (hm_get m k).isSome

/-- `create_hash_map_from_deposit_info_list`
(get_deposit_info_hash_map.rs:14-28): inserts every list entry keyed by its
`btc_deposit_address`, then returns `Ok` unconditionally. -/
def create_hash_map_from_deposit_info_list
    (deposit_info_list : List DepositAddressInfo) :
    Except AppError DepositInfoHashMap :=
  .ok (deposit_info_list.foldl
    (fun hash_map deposit_info =>
      hm_insert hash_map deposit_info.btc_deposit_address deposit_info)
    hm_empty)

/-- A transaction output `TxOut`. -/
structure BtcTxOut where
  value : Nat
  script_pubkey : Script
  deriving DecidableEq

/-- An `OutPoint`: the id of the source transaction and the output index. -/
structure BtcOutPoint where
  txid : List Nat
  vout : Nat
  deriving DecidableEq

/-- A transaction input `TxIn` (the crate's alias `BtcUtxo`). -/
structure BtcUtxo where
  previous_output : BtcOutPoint
  script_sig : Script
  sequence : Nat
  witness : List (List Nat)
  deriving DecidableEq

/-- A `Transaction`. Its id is computed by the external consensus codec,
passed around as a `txid` function parameter. -/
structure BtcTransaction where
  version : Int
  lock_time : Nat
  input : List BtcUtxo
  output : List BtcTxOut
  deriving DecidableEq

/-- Modelled from the spec: the fixed default sequence number used for
unsigned inputs (`DEFAULT_BTC_SEQUENCE` of btc_constants, which is not in
the excerpt; the serialized sample UTXO in the tests ends `ffffffff`). -/
def DEFAULT_BTC_SEQUENCE : Nat := 4294967295

/-- `is_address_locked_to_pub_key` (filter_p2sh_deposit_txs.rs:23-59):
looks the candidate address up in the deposit-info map; on a miss returns
`false`, on a hit recomputes the p2sh address of the redeem script built
from the enclave public key and the entry's `eth_address_and_nonce_hash`
and returns whether it equals the candidate. Total: never an error. -/
def is_address_locked_to_pub_key (hash160 : List Nat → List Nat)
    (btc_network : Network) (enclave_public_key_slice : List Nat)
    (address_from_utxo : BtcAddress) (deposit_info : DepositInfoHashMap) :
    Bool :=
  match hm_get deposit_info address_from_utxo with
  | none => false
  | some deposit_info_entry =>
    let address_from_script := btcAddress_p2sh hash160
      (get_p2sh_redeem_script_sig enclave_public_key_slice
        deposit_info_entry.eth_address_and_nonce_hash)
      btc_network
    match decide (address_from_script = address_from_utxo) with
    | true => true
    | false => false

/-- `is_output_address_locked_to_pub_key`
(filter_p2sh_deposit_txs.rs:61-76): recovers an address from the output's
`script_pubkey` (no address → `false`) and defers to
`is_address_locked_to_pub_key`. -/
def is_output_address_locked_to_pub_key (hash160 : List Nat → List Nat)
    (tx_output : BtcTxOut) (btc_network : Network)
    (enclave_public_key_slice : List Nat)
    (deposit_info : DepositInfoHashMap) : Bool :=
  match btcAddress_from_script tx_output.script_pubkey btc_network with
  | none => false
  | some address_from_utxo => is_address_locked_to_pub_key hash160
      btc_network enclave_public_key_slice address_from_utxo deposit_info

/-- `is_output_address_in_hash_map` (filter_p2sh_deposit_txs.rs:78-100). -/
def is_output_address_in_hash_map (tx_output : BtcTxOut)
    (deposit_info : DepositInfoHashMap) (btc_network : Network) : Bool :=
  match btcAddress_from_script tx_output.script_pubkey btc_network with
  | none => false
  | some address => hm_contains_key deposit_info address

/-- `filter_p2sh_deposit_txs` (filter_p2sh_deposit_txs.rs:102-137): keeps a
transaction when the chain of output filters — p2sh script, address in the
hash map, address locked to the enclave key — leaves a non-empty list. -/
def filter_p2sh_deposit_txs (hash160 : List Nat → List Nat)
    (deposit_info : DepositInfoHashMap)
    (enclave_public_key_slice : List Nat)
    (transactions : List BtcTransaction) (btc_network : Network) :
    Except AppError (List BtcTransaction) :=
  .ok (transactions.filter (fun txdata =>
    (List.filter (fun tx_out =>
        is_output_address_locked_to_pub_key hash160 tx_out btc_network
          enclave_public_key_slice deposit_info)
      (List.filter (fun tx_out =>
          is_output_address_in_hash_map tx_out deposit_info btc_network)
        (List.filter (fun tx_out : BtcTxOut =>
            tx_out.script_pubkey.is_p2sh)
          txdata.output))).length > 0))

/-- `BtcUtxoAndValue` (btc_types): a UTXO's value together with the
serialized UTXO and optional metadata, all `None` at the call site
embedded here. The external consensus serializer for the UTXO is a
parameter of `BtcUtxoAndValue.new` below. -/
structure BtcUtxoAndValue where
  value : Nat
  serialized_utxo : List Nat
  maybe_pointer : Option BtcOutPoint
  maybe_extra_data : Option (List Nat)
  maybe_deposit_info_json : Option (List Nat)
  deriving DecidableEq

/-- `BtcUtxoAndValue::new` (btc_types, outside the excerpt; its stored
`serialized_utxo` field is visible in the tests): serializes the given
UTXO and stores value plus optional metadata. -/
def BtcUtxoAndValue.new (serialize_utxo : BtcUtxo → List Nat) (value : Nat)
    (utxo : BtcUtxo) (maybe_deposit_info_json : Option (List Nat))
    (maybe_pointer : Option BtcOutPoint) : BtcUtxoAndValue :=
  ⟨value, serialize_utxo utxo, maybe_pointer, none, maybe_deposit_info_json⟩

/-- `create_unsigned_utxo_from_tx` (btc_utils.rs:173-190): builds a `TxIn`
whose outpoint is (txid, index) and whose `script_sig` is a copy of the
referenced output's locking script. `tx.output[output_index as usize]`
indexes the output list directly; `none` models the Rust panic when the
index is out of bounds. -/
def create_unsigned_utxo_from_tx (txid : BtcTransaction → List Nat)
    (tx : BtcTransaction) (output_index : Nat) : Option BtcUtxo :=
  match tx.output.get? output_index with
  | none => none
  | some referenced_output =>
    some
      { witness := []
        previous_output := ⟨txid tx, output_index⟩
        sequence := DEFAULT_BTC_SEQUENCE
        script_sig := referenced_output.script_pubkey }

/-- `create_op_return_btc_utxo_and_value_from_tx_output`
(btc_utils.rs:161-171): reads `tx.output[output_index as usize].value` and
wraps the unsigned UTXO; both indexings panic (`none`) out of bounds. -/
def create_op_return_btc_utxo_and_value_from_tx_output
    (txid : BtcTransaction → List Nat) (serialize_utxo : BtcUtxo → List Nat)
    (tx : BtcTransaction) (output_index : Nat) : Option BtcUtxoAndValue :=
  match tx.output.get? output_index with
  | none => none
  | some referenced_output =>
    match create_unsigned_utxo_from_tx txid tx output_index with
    | none => none
    | some unsigned_utxo =>
      some (BtcUtxoAndValue.new serialize_utxo referenced_output.value
        unsigned_utxo none none)

/-- Modelled from the spec: `convert_u64_to_bytes` (crate utils, outside
the excerpt): the fixed-width 8-byte (little-endian) encoding of a u64
(spec §6: "all integers fixed-width (8 bytes)"). -/
def convert_u64_to_bytes (x : Nat) : List Nat :=
  [x % 256, x / 256 % 256, x / 65536 % 256, x / 16777216 % 256,
   x / 4294967296 % 256, x / 1099511627776 % 256,
   x / 281474976710656 % 256, x / 72057594037927936 % 256]

/-- Modelled from the spec: `convert_bytes_to_u64` (crate utils, outside
the excerpt): succeeds exactly on 8-byte inputs (spec §6 fixed-width
8-byte integers; spec §4.4 lists "bad height encoding" as a decode
failure), errors otherwise. -/
def convert_bytes_to_u64 (bytes : List Nat) : Except AppError Nat :=
  match bytes with
  | [b0, b1, b2, b3, b4, b5, b6, b7] =>
    .ok (b0 + b1 * 256 + b2 * 65536 + b3 * 16777216 + b4 * 4294967296 +
      b5 * 1099511627776 + b6 * 281474976710656 +
      b7 * 72057594037927936)
  | _ => .error (.Custom "✘ Wrong number of bytes to convert to u64!")

/-- `convert_btc_network_to_bytes` (btc_utils.rs:207-213). -/
def convert_btc_network_to_bytes (network : Network) :
    Except AppError (List Nat) :=
  match network with
  | .Bitcoin => .ok (convert_u64_to_bytes 0)
  | .Testnet => .ok (convert_u64_to_bytes 1)
  | .Regtest => .ok (convert_u64_to_bytes 2)

/-- `convert_bytes_to_btc_network` (btc_utils.rs:215-221): decodes the
8-byte integer (propagating its error via `?`), then maps 1 → Testnet,
2 → Regtest and every other value → Bitcoin. -/
def convert_bytes_to_btc_network (bytes : List Nat) :
    Except AppError Network :=
  match convert_bytes_to_u64 bytes with
  | .error e => .error e
  | .ok 1 => .ok .Testnet
  | .ok 2 => .ok .Regtest
  | .ok _ => .ok .Bitcoin

/-- Modelled from the spec: `PTOKEN_P2SH_SCRIPT_BYTES` (btc_constants,
outside the excerpt): the fixed byte overhead of this bridge's p2sh redeem
script in the size estimate. The spec's `estimate_size(1,1) == 193` (and
the repository's own test asserting 193) forces the value 0. -/
def PTOKEN_P2SH_SCRIPT_BYTES : Nat := 0

/-- `calculate_btc_tx_size` (btc_utils.rs:322-324); usize/u64 arithmetic,
wrap-around made explicit. -/
def calculate_btc_tx_size (num_inputs num_outputs : Nat) : Nat :=
  (num_inputs * (148 + PTOKEN_P2SH_SCRIPT_BYTES) + num_outputs * 34 + 10 +
    num_inputs) % 2 ^ 64

/-- `calculate_btc_tx_fee` (btc_utils.rs:313-319); u64 multiplication,
wrap-around made explicit. -/
def calculate_btc_tx_fee (num_inputs num_outputs sats_per_byte : Nat) :
    Nat :=
  calculate_btc_tx_size num_inputs num_outputs * sats_per_byte % 2 ^ 64

/-- `convert_btc_address_to_pub_key_hash_bytes` (btc_utils.rs:344-348):
`from_base58(btc_address)?[1..21].to_vec()`. The base58 decoder is the
crate's own (external to the excerpt) and is passed as a parameter; the
slice `[1..21]` has no length guard, so a successful decode of fewer than
21 bytes is a panic (`none`), not an error. -/
def convert_btc_address_to_pub_key_hash_bytes
    (from_base58 : String → Except AppError (List Nat))
    (btc_address : String) : Option (Except AppError (List Nat)) :=
  match from_base58 btc_address with
  | .error e => some (.error e)
  | .ok decoded =>
    if 21 ≤ decoded.length then some (.ok ((decoded.drop 1).take 20))
    else none

/-- `MintingParamStruct` (btc_types): one mint instruction. The u256
amount is modelled as `Nat`. -/
structure MintingParamStruct where
  amount : Nat
  eth_address : List Nat
  originating_tx_hash : Hash32
  originating_tx_address : BtcAddress
  deriving DecidableEq

/-- `MintingParams = Vec<MintingParamStruct>`. -/
abbrev MintingParams : Type := List MintingParamStruct

/-- `SerializedBlockInDbFormat` (btc_utils.rs:77-102): the envelope of
serialized fields that is itself JSON-serialized for persistence. -/
structure SerializedBlockInDbFormat where
  id : List Nat
  block : List Nat
  height : List Nat
  extra_data : List Nat
  minting_params : List Nat
  deriving DecidableEq

/-- `BtcBlockInDbFormat` (btc_types): the canonical persisted record,
polymorphic in the external consensus block type `Block`. -/
structure BtcBlockInDbFormat (Block : Type) where
  height : Nat
  id : Hash32
  minting_params : MintingParams
  block : Block
  extra_data : List Nat

/-- `BtcBlockInDbFormat::new` (btc_types, outside the excerpt). Modelled
from the spec: plain record construction ("created once per ingested
block"), wrapped in the crate's `Result`. -/
def BtcBlockInDbFormat.new {Block : Type} (height : Nat) (id : Hash32)
    (minting_params : MintingParams) (block : Block)
    (extra_data : List Nat) : Except AppError (BtcBlockInDbFormat Block) :=
  .ok ⟨height, id, minting_params, block, extra_data⟩

/-- `serialize_minting_params` (btc_utils.rs:149-153): delegates to the
external structured serializer (`serde_json::to_vec`), passed in as
`mp_to_vec`; serialization of these in-memory values cannot fail, so the
propagated-error arm is vacuous. -/
def serialize_minting_params (mp_to_vec : MintingParams → List Nat)
    (minting_params : MintingParams) : Except AppError (List Nat) :=
  .ok (mp_to_vec minting_params)

/-- `deserialize_minting_params` (btc_utils.rs:155-159): delegates to the
external structured deserializer (`serde_json::from_slice`), passed in as
`mp_from_slice`; a parse failure propagates as an error. -/
def deserialize_minting_params
    (mp_from_slice : List Nat → Option MintingParams)
    (serialized_minting_params : List Nat) : Except AppError MintingParams :=
  match mp_from_slice serialized_minting_params with
  | some minting_params => .ok minting_params
  | none => .error .SerdeJsonError

/-- `serialize_btc_block_in_db_format` (btc_utils.rs:223-243): returns the
block's own id bytes as the persistence key, paired with the
JSON-serialized envelope of (id, consensus-serialized block, 8-byte
height, extra data, serialized minting params). The external serializers
(`serde_json::to_vec` for the envelope, the consensus codec for the
block) are parameters. -/
def serialize_btc_block_in_db_format {Block : Type}
    (env_to_vec : SerializedBlockInDbFormat → List Nat)
    (btc_serialize : Block → List Nat)
    (mp_to_vec : MintingParams → List Nat)
    (btc_block_in_db_format : BtcBlockInDbFormat Block) :
    Except AppError (List Nat × List Nat) :=
  let serialized_id := btc_block_in_db_format.id.val
  match serialize_minting_params mp_to_vec
      btc_block_in_db_format.minting_params with
  | .error e => .error e
  | .ok serialized_minting_params =>
    .ok (serialized_id,
      env_to_vec
        ⟨serialized_id,
         btc_serialize btc_block_in_db_format.block,
         convert_u64_to_bytes btc_block_in_db_format.height,
         btc_block_in_db_format.extra_data,
         serialized_minting_params⟩)

/-- `deserialize_btc_block_in_db_format` (btc_utils.rs:245-260): parses
the JSON envelope, then rebuilds the record, failing if the height bytes,
the id bytes, the minting params or the consensus block fail to parse. -/
def deserialize_btc_block_in_db_format {Block : Type}
    (env_from_slice : List Nat → Option SerializedBlockInDbFormat)
    (btc_deserialize : List Nat → Option Block)
    (mp_from_slice : List Nat → Option MintingParams)
    (serialized_block_in_db_format : List Nat) :
    Except AppError (BtcBlockInDbFormat Block) :=
  match env_from_slice serialized_block_in_db_format with
  | none => .error .SerdeJsonError
  | some serialized_struct =>
    match convert_bytes_to_u64 serialized_struct.height with
    | .error e => .error e
    | .ok height =>
      match hash32_from_slice serialized_struct.id with
      | none => .error .HashError
      | some id =>
        match deserialize_minting_params mp_from_slice
            serialized_struct.minting_params with
        | .error e => .error e
        | .ok minting_params =>
          match btc_deserialize serialized_struct.block with
          | none => .error .BlockDecodeError
          | some block =>
            BtcBlockInDbFormat.new height id minting_params block
              serialized_struct.extra_data

/-- The envelope value built inside `serialize_btc_block_in_db_format`
(btc_utils.rs:230-239), named so the round-trip theorem can refer to
it. -/
def serialized_envelope_of {Block : Type} (btc_serialize : Block → List Nat)
    (mp_to_vec : MintingParams → List Nat)
    (btc_block_in_db_format : BtcBlockInDbFormat Block) :
    SerializedBlockInDbFormat :=
  ⟨btc_block_in_db_format.id.val,
   btc_serialize btc_block_in_db_format.block,
   convert_u64_to_bytes btc_block_in_db_format.height,
   btc_block_in_db_format.extra_data,
   mp_to_vec btc_block_in_db_format.minting_params⟩

/-- An ETH block, reduced to the one field this initialization code
reads: its hash. -/
structure EthBlock where
  hash : List Nat
  deriving DecidableEq

/-- `EthBlockAndReceipts`; the receipts play no role in the embedded
pointer-initialization code. -/
structure EthBlockAndReceipts where
  block : EthBlock
  deriving DecidableEq

/-- The per-chain scalar pointer keys of the byte-keyed store
(spec §6). -/
inductive EthDbKey where
  | latest_block_hash
  | canon_block_hash
  | anchor_block_hash
  | tail_block_hash
  deriving DecidableEq, Repr

/-- The byte-keyed store, restricted to the pointer keys: an association
list where a put shadows earlier bindings. -/
abbrev EthDb : Type := List (EthDbKey × List Nat)

def ethDb_put (db : EthDb) (key : EthDbKey) (value : List Nat) : EthDb :=
  (key, value) :: db

def ethDb_get (db : EthDb) (key : EthDbKey) : Option (List Nat) :=
  (List.find? (fun p => p.1 = key) db).map (fun p => p.2)

/-- `EthState`: the database handle plus the optional block-and-receipts
loaded into the state. -/
structure EthState where
  db : EthDb
  eth_block_and_receipts : Option EthBlockAndReceipts

/-- `EthState::get_eth_block_and_receipts` (eth_state, outside the
excerpt). Modelled from the spec: reading the block from the state fails
if none has been added. -/
def EthState.get_eth_block_and_receipts (state : EthState) :
    Except AppError EthBlockAndReceipts :=
  match state.eth_block_and_receipts with
  | some block_and_receipts => .ok block_and_receipts
  | none => .error (.Custom "✘ No ETH block and receipts in state!")

/-- Modelled from the spec: `put_eth_latest_block_hash_in_db`
(eth_database_utils, outside the excerpt) writes the latest-pointer
scalar key (spec §6). -/
def put_eth_latest_block_hash_in_db (db : EthDb) (hash : List Nat) :
    Except AppError EthDb :=
  .ok (ethDb_put db .latest_block_hash hash)

/-- Modelled from the spec: `put_eth_canon_block_hash_in_db` writes the
canon-pointer scalar key (spec §6). -/
def put_eth_canon_block_hash_in_db (db : EthDb) (hash : List Nat) :
    Except AppError EthDb :=
  .ok (ethDb_put db .canon_block_hash hash)

/-- Modelled from the spec: `put_eth_anchor_block_hash_in_db` writes the
anchor-pointer scalar key (spec §6). -/
def put_eth_anchor_block_hash_in_db (db : EthDb) (hash : List Nat) :
    Except AppError EthDb :=
  .ok (ethDb_put db .anchor_block_hash hash)

/-- Modelled from the spec: `put_eth_tail_block_hash_in_db` writes the
tail-pointer scalar key (spec §6). -/
def put_eth_tail_block_hash_in_db (db : EthDb) (hash : List Nat) :
    Except AppError EthDb :=
  .ok (ethDb_put db .tail_block_hash hash)

/-- `set_hash_from_block_in_state` (eth_init_utils.rs:44-67): reads the
state block's hash, writes it under the pointer key selected by the
`hash_type` string, and errors — storing nothing — on any other string. -/
def set_hash_from_block_in_state (state : EthState) (hash_type : String) :
    Except AppError EthState :=
  match state.get_eth_block_and_receipts with
  | .error e => .error e
  | .ok block_and_receipts =>
    let hash := block_and_receipts.block.hash
    match hash_type with
    | "canon" =>
      match put_eth_canon_block_hash_in_db state.db hash with
      | .error e => .error e
      | .ok db => .ok { state with db := db }
    | "latest" =>
      match put_eth_latest_block_hash_in_db state.db hash with
      | .error e => .error e
      | .ok db => .ok { state with db := db }
    | "anchor" =>
      match put_eth_anchor_block_hash_in_db state.db hash with
      | .error e => .error e
      | .ok db => .ok { state with db := db }
    | _ => .error (.Custom "✘ Hash type not recognized!")

/-- `set_eth_latest_block_hash_and_return_state`
(eth_init_utils.rs:69-75). -/
def set_eth_latest_block_hash_and_return_state (state : EthState) :
    Except AppError EthState :=
  set_hash_from_block_in_state state "latest"

/-- `set_eth_anchor_block_hash_and_return_state`
(eth_init_utils.rs:77-83). -/
def set_eth_anchor_block_hash_and_return_state (state : EthState) :
    Except AppError EthState :=
  set_hash_from_block_in_state state "anchor"

/-- `set_eth_canon_block_hash_and_return_state`
(eth_init_utils.rs:85-91). -/
def set_eth_canon_block_hash_and_return_state (state : EthState) :
    Except AppError EthState :=
  set_hash_from_block_in_state state "canon"

/-- `put_eth_tail_block_hash_in_db_and_return_state`
(eth_init_utils.rs:31-42). -/
def put_eth_tail_block_hash_in_db_and_return_state (state : EthState) :
    Except AppError EthState :=
  match state.get_eth_block_and_receipts with
  | .error e => .error e
  | .ok block_and_receipts =>
    match put_eth_tail_block_hash_in_db state.db
        block_and_receipts.block.hash with
    | .error e => .error e
    | .ok db => .ok { state with db := db }

/-! ## Helper lemmas -/

theorem is_address_locked_to_pub_key_eq_true_iff
    (hash160 : List Nat → List Nat) (btc_network : Network)
    (enclave_public_key_slice : List Nat) (address_from_utxo : BtcAddress)
    (deposit_info : DepositInfoHashMap) :
    is_address_locked_to_pub_key hash160 btc_network
        enclave_public_key_slice address_from_utxo deposit_info = true ↔
      ∃ entry, hm_get deposit_info address_from_utxo = some entry ∧
        btcAddress_p2sh hash160
          (get_p2sh_redeem_script_sig enclave_public_key_slice
            entry.eth_address_and_nonce_hash) btc_network =
          address_from_utxo := by
  unfold is_address_locked_to_pub_key
  cases hg : hm_get deposit_info address_from_utxo with
  | none => simp [hg]
  | some entry =>
    by_cases hd : btcAddress_p2sh hash160
        (get_p2sh_redeem_script_sig enclave_public_key_slice
          entry.eth_address_and_nonce_hash) btc_network =
        address_from_utxo <;>
      simp [hg, hd]

theorem is_output_address_locked_to_pub_key_eq_true_iff
    (hash160 : List Nat → List Nat) (tx_output : BtcTxOut)
    (btc_network : Network) (enclave_public_key_slice : List Nat)
    (deposit_info : DepositInfoHashMap) :
    is_output_address_locked_to_pub_key hash160 tx_output btc_network
        enclave_public_key_slice deposit_info = true ↔
      ∃ address, btcAddress_from_script tx_output.script_pubkey
          btc_network = some address ∧
        ∃ entry, hm_get deposit_info address = some entry ∧
          btcAddress_p2sh hash160
            (get_p2sh_redeem_script_sig enclave_public_key_slice
              entry.eth_address_and_nonce_hash) btc_network = address := by
  unfold is_output_address_locked_to_pub_key
  cases hf : btcAddress_from_script tx_output.script_pubkey btc_network with
  | none => simp [hf]
  | some address =>
    simp only [hf, Option.some.injEq]
    rw [is_address_locked_to_pub_key_eq_true_iff]
    constructor
    · rintro ⟨entry, hget, haddr⟩
      exact ⟨address, rfl, entry, hget, haddr⟩
    · rintro ⟨address2, haddr2, entry, hget, haddr⟩
      cases haddr2
      exact ⟨entry, hget, haddr⟩

theorem is_output_address_in_hash_map_eq_true_iff (tx_output : BtcTxOut)
    (deposit_info : DepositInfoHashMap) (btc_network : Network) :
    is_output_address_in_hash_map tx_output deposit_info btc_network =
        true ↔
      ∃ address, btcAddress_from_script tx_output.script_pubkey
          btc_network = some address ∧
        hm_contains_key deposit_info address = true := by
  unfold is_output_address_in_hash_map
  cases hf : btcAddress_from_script tx_output.script_pubkey btc_network with
  | none => simp [hf]
  | some address => simp [hf]

theorem length_pos_filter_iff {α : Type} (p : α → Bool) (l : List α) :
    0 < (l.filter p).length ↔ ∃ x ∈ l, p x = true := by
  rw [List.length_pos, ne_eq, List.filter_eq_nil_iff]
  push_neg
  simp

theorem convert_u64_roundtrip (x : Nat) (hx : x < 2 ^ 64) :
    convert_bytes_to_u64 (convert_u64_to_bytes x) = .ok x := by
  simp only [convert_u64_to_bytes, convert_bytes_to_u64, Except.ok.injEq]
  omega

theorem hash32_from_slice_of_val (h : Hash32) :
    hash32_from_slice h.val = some h := by
  rw [hash32_from_slice, dif_pos h.property]

theorem foldl_hm_insert_eq (l : List DepositAddressInfo)
    (acc : DepositInfoHashMap) :
    l.foldl (fun hash_map deposit_info =>
        hm_insert hash_map deposit_info.btc_deposit_address deposit_info)
      acc =
      (l.map (fun d => (d.btc_deposit_address, d))).reverse ++ acc := by
  induction l generalizing acc with
  | nil => simp
  | cons x xs ih =>
    rw [List.foldl_cons, ih, List.map_cons, List.reverse_cons,
      List.append_assoc, List.singleton_append, hm_insert]

theorem hm_get_map_pairs (lr : List DepositAddressInfo) (a : BtcAddress) :
    hm_get (lr.map (fun d => (d.btc_deposit_address, d))) a =
      lr.find? (fun d => d.btc_deposit_address = a) := by
  induction lr with
  | nil => rfl
  | cons x xs ih =>
    by_cases hx : x.btc_deposit_address = a
    · simp [hm_get, List.map_cons, List.find?_cons_of_pos, hx]
    · simp only [hm_get, List.map_cons] at ih ⊢
      rw [List.find?_cons_of_neg, List.find?_cons_of_neg]
      · exact ih
      · simpa using hx
      · simpa using hx

/-! ## Claim theorems -/

/-- C3: for every enclave public key and 32-byte derivation hash, the
derived redeem script is exactly a push of the derivation hash, `OP_DROP`,
a push of the enclave public key, and `OP_CHECKSIG`, in that order (the
32-byte hash push being a bare length byte `0x20` followed by the hash). -/
theorem redeem_script_is_push_drop_push_checksig
    (pub_key : List Nat) (derivation_hash : Hash32) :
    (get_p2sh_redeem_script_sig pub_key derivation_hash).bytes =
        pushdata_encoding derivation_hash.val ++ [OP_DROP] ++
        pushdata_encoding pub_key ++ [OP_CHECKSIG] ∧
      pushdata_encoding derivation_hash.val = 32 :: derivation_hash.val := by
  constructor
  · simp [get_p2sh_redeem_script_sig, Builder.new, Builder.push_slice,
      Builder.push_opcode, Builder.into_script, List.append_assoc]
  · have h32 : derivation_hash.val.length = 32 := derivation_hash.property
    simp [pushdata_encoding, h32, OP_PUSHDATA1]

/-- C2: the locked-address verification returns `true` exactly when the
candidate address has a registry entry whose derivation hash, together
with the enclave public key, recomputes to a p2sh address equal to the
candidate; a registry miss or mismatch gives `false`. Both the
address-level and the output-level predicate are total (`Bool`-valued):
no input produces an error. The output-level variant additionally returns
`false` when no address can be recovered from the output script. -/
theorem verify_locked_iff_registry_entry_recomputes
    (hash160 : List Nat → List Nat) (btc_network : Network)
    (enclave_public_key_slice : List Nat)
    (deposit_info : DepositInfoHashMap) :
    (∀ address_from_utxo : BtcAddress,
      is_address_locked_to_pub_key hash160 btc_network
          enclave_public_key_slice address_from_utxo deposit_info = true ↔
        ∃ entry, hm_get deposit_info address_from_utxo = some entry ∧
          btcAddress_p2sh hash160
            (get_p2sh_redeem_script_sig enclave_public_key_slice
              entry.eth_address_and_nonce_hash) btc_network =
            address_from_utxo) ∧
    (∀ tx_output : BtcTxOut,
      is_output_address_locked_to_pub_key hash160 tx_output btc_network
          enclave_public_key_slice deposit_info = true ↔
        ∃ address, btcAddress_from_script tx_output.script_pubkey
            btc_network = some address ∧
          ∃ entry, hm_get deposit_info address = some entry ∧
            btcAddress_p2sh hash160
              (get_p2sh_redeem_script_sig enclave_public_key_slice
                entry.eth_address_and_nonce_hash) btc_network = address) :=
  ⟨fun address_from_utxo =>
      is_address_locked_to_pub_key_eq_true_iff hash160 btc_network
        enclave_public_key_slice address_from_utxo deposit_info,
    fun tx_output =>
      is_output_address_locked_to_pub_key_eq_true_iff hash160 tx_output
        btc_network enclave_public_key_slice deposit_info⟩

/-- C7: building the deposit registry always succeeds, and the resulting
map sends an address to the deposit info of the last list entry bearing
that address (so its keys are exactly the deposit addresses occurring in
the list, with later duplicates overwriting earlier ones). -/
theorem registry_build_succeeds_last_write_wins
    (deposit_info_list : List DepositAddressInfo) :
    ∃ m, create_hash_map_from_deposit_info_list deposit_info_list =
        .ok m ∧
      (∀ a : BtcAddress, hm_get m a =
        deposit_info_list.reverse.find?
          (fun d => d.btc_deposit_address = a)) ∧
      (∀ a : BtcAddress, hm_contains_key m a = true ↔
        a ∈ deposit_info_list.map
          (fun d => d.btc_deposit_address)) := by
  have hmap : (deposit_info_list.foldl
      (fun hash_map deposit_info =>
        hm_insert hash_map deposit_info.btc_deposit_address deposit_info)
      hm_empty) =
      deposit_info_list.reverse.map (fun d => (d.btc_deposit_address, d)) := by
    rw [foldl_hm_insert_eq]
    simp [hm_empty, List.map_reverse]
  have hget : ∀ a : BtcAddress,
      hm_get (deposit_info_list.foldl
        (fun hash_map deposit_info =>
          hm_insert hash_map deposit_info.btc_deposit_address deposit_info)
        hm_empty) a =
      deposit_info_list.reverse.find?
        (fun d => d.btc_deposit_address = a) := by
    intro a
    rw [hmap, hm_get_map_pairs]
  refine ⟨_, rfl, hget, ?_⟩
  intro a
  rw [hm_contains_key, hget a]
  simp only [List.find?_isSome, List.mem_reverse, List.mem_map,
    decide_eq_true_eq]

/-- C1: the p2sh deposit filter retains a transaction exactly when at
least one of its outputs has a p2sh locking script, yields an address that
is a key of the registry, and passes the locked-to-enclave recomputation
against that entry's derivation hash; non-p2sh outputs never qualify
(the p2sh check is the first filter), an output failing any check does not
qualify, and any single passing output suffices. -/
theorem filter_retains_tx_iff_some_output_passes_all_checks
    (hash160 : List Nat → List Nat) (deposit_info : DepositInfoHashMap)
    (enclave_public_key_slice : List Nat)
    (transactions : List BtcTransaction) (btc_network : Network) :
    ∃ kept, filter_p2sh_deposit_txs hash160 deposit_info
        enclave_public_key_slice transactions btc_network = .ok kept ∧
      ∀ tx : BtcTransaction, tx ∈ kept ↔ tx ∈ transactions ∧
        ∃ tx_out ∈ tx.output, tx_out.script_pubkey.is_p2sh = true ∧
          ∃ address, btcAddress_from_script tx_out.script_pubkey
              btc_network = some address ∧
            hm_contains_key deposit_info address = true ∧
            ∃ entry, hm_get deposit_info address = some entry ∧
              btcAddress_p2sh hash160
                (get_p2sh_redeem_script_sig enclave_public_key_slice
                  entry.eth_address_and_nonce_hash) btc_network =
                address := by
  refine ⟨_, rfl, ?_⟩
  intro tx
  rw [List.mem_filter]
  simp only [decide_eq_true_eq, length_pos_filter_iff, List.mem_filter,
    is_output_address_in_hash_map_eq_true_iff,
    is_output_address_locked_to_pub_key_eq_true_iff]
  constructor
  · rintro ⟨htxmem,
      ⟨x, ⟨⟨hxmem, hp2sh⟩, ⟨a1, hfs1, hcont⟩⟩, ⟨a2, hfs2, entry, hget, heq⟩⟩⟩
    rw [hfs1] at hfs2
    injection hfs2 with ha
    subst ha
    exact ⟨htxmem, x, hxmem, hp2sh, a1, hfs1, hcont, entry, hget, heq⟩
  · rintro ⟨htxmem, x, hxmem, hp2sh, a, hfs, hcont, entry, hget, heq⟩
    exact ⟨htxmem,
      ⟨x, ⟨⟨hxmem, hp2sh⟩, ⟨a, hfs, hcont⟩⟩, ⟨a, hfs, entry, hget, heq⟩⟩⟩

/-- C4: encoding a valid block record and decoding the payload returns the
record, and the id bytes returned by encoding are the record's own
block-hash bytes; the minting-params wrapper codec likewise round-trips.
The external structured serializers are parameters, assumed to round-trip
on the values actually passed to them (the repository delegates those
byte formats to serde_json and the consensus codec). -/
theorem block_record_and_minting_params_roundtrip {Block : Type}
    (env_to_vec : SerializedBlockInDbFormat → List Nat)
    (env_from_slice : List Nat → Option SerializedBlockInDbFormat)
    (btc_serialize : Block → List Nat)
    (btc_deserialize : List Nat → Option Block)
    (mp_to_vec : MintingParams → List Nat)
    (mp_from_slice : List Nat → Option MintingParams)
    (r : BtcBlockInDbFormat Block)
    (hheight : r.height < 2 ^ 64)
    (henv : env_from_slice
        (env_to_vec (serialized_envelope_of btc_serialize mp_to_vec r)) =
      some (serialized_envelope_of btc_serialize mp_to_vec r))
    (hblock : btc_deserialize (btc_serialize r.block) = some r.block)
    (hmp : mp_from_slice (mp_to_vec r.minting_params) =
      some r.minting_params) :
    serialize_btc_block_in_db_format env_to_vec btc_serialize mp_to_vec r =
        .ok (r.id.val,
          env_to_vec (serialized_envelope_of btc_serialize mp_to_vec r)) ∧
      deserialize_btc_block_in_db_format env_from_slice btc_deserialize
          mp_from_slice
          (env_to_vec (serialized_envelope_of btc_serialize mp_to_vec r)) =
        .ok r ∧
      ∀ l : MintingParams, mp_from_slice (mp_to_vec l) = some l →
        ∃ b, serialize_minting_params mp_to_vec l = .ok b ∧
          deserialize_minting_params mp_from_slice b = .ok l := by
  refine ⟨rfl, ?_, ?_⟩
  · unfold deserialize_btc_block_in_db_format
    rw [henv]
    simp only [serialized_envelope_of,
      convert_u64_roundtrip r.height hheight, hash32_from_slice_of_val,
      deserialize_minting_params, hmp, hblock, BtcBlockInDbFormat.new]
  · intro l hl
    refine ⟨mp_to_vec l, rfl, ?_⟩
    unfold deserialize_minting_params
    rw [hl]

/-- C5, counterexample: decoding a corrupt (non-8-byte) byte string does
NOT fall back to the primary network — it surfaces the integer decoder's
error instead. -/
theorem network_decode_of_corrupt_bytes_is_error :
    convert_bytes_to_btc_network [] ≠ .ok .Bitcoin ∧
      convert_bytes_to_btc_network [] =
        .error (.Custom "✘ Wrong number of bytes to convert to u64!") := by
  constructor
  · intro h
    exact Except.noConfusion h
  · rfl

/-- C5, amended: the network codec round-trips each of the three defined
networks, and decoding any well-formed 8-byte value other than the
encodings of the secondary-test (1) and regression-test (2) networks
yields the primary network; byte strings that are not exactly 8 bytes
long, however, yield an error rather than the primary network. -/
theorem network_codec_roundtrip_and_fallback :
    (∀ n : Network, ∃ b, convert_btc_network_to_bytes n = .ok b ∧
        convert_bytes_to_btc_network b = .ok n) ∧
      (∀ (bytes : List Nat) (v : Nat), convert_bytes_to_u64 bytes = .ok v →
        v ≠ 1 → v ≠ 2 → convert_bytes_to_btc_network bytes = .ok .Bitcoin) ∧
      (∀ bytes : List Nat, bytes.length ≠ 8 →
        ∃ e, convert_bytes_to_btc_network bytes = .error e) := by
  refine ⟨?_, ?_, ?_⟩
  · intro n
    cases n <;> exact ⟨_, rfl, rfl⟩
  · intro bytes v h h1 h2
    rw [convert_bytes_to_btc_network, h]
    cases v with
    | zero => rfl
    | succ v1 =>
      cases v1 with
      | zero => exact absurd rfl h1
      | succ v2 =>
        cases v2 with
        | zero => exact absurd rfl h2
        | succ v3 => rfl
  · intro bytes hlen
    rcases bytes with _ | ⟨b0, _ | ⟨b1, _ | ⟨b2, _ | ⟨b3, _ | ⟨b4,
      _ | ⟨b5, _ | ⟨b6, _ | ⟨b7, _ | ⟨b8, rest⟩⟩⟩⟩⟩⟩⟩⟩⟩ <;>
      first
      | exact ⟨_, rfl⟩
      | simp at hlen

/-- C6: on in-range (non-overflowing) u64 values the estimated transaction
size is inputs*(148 + redeem-script-overhead) + outputs*34 + 10 + inputs,
the estimated fee is size times the satoshi-per-byte rate, and with this
bridge's fixed overhead a one-input one-output transaction is estimated
at exactly 193 bytes. -/
theorem tx_size_and_fee_formula (num_inputs num_outputs sats_per_byte : Nat)
    (hsize : num_inputs * (148 + PTOKEN_P2SH_SCRIPT_BYTES) +
      num_outputs * 34 + 10 + num_inputs < 2 ^ 64)
    (hfee : calculate_btc_tx_size num_inputs num_outputs * sats_per_byte <
      2 ^ 64) :
    calculate_btc_tx_size num_inputs num_outputs =
        num_inputs * (148 + PTOKEN_P2SH_SCRIPT_BYTES) + num_outputs * 34 +
          10 + num_inputs ∧
      calculate_btc_tx_fee num_inputs num_outputs sats_per_byte =
        calculate_btc_tx_size num_inputs num_outputs * sats_per_byte ∧
      calculate_btc_tx_size 1 1 = 193 := by
  refine ⟨?_, ?_, by decide⟩
  · rw [calculate_btc_tx_size, Nat.mod_eq_of_lt hsize]
  · rw [calculate_btc_tx_fee, Nat.mod_eq_of_lt hfee]

/-- C8: starting from any database and any anchor block loaded in state,
running the four pointer initializers writes the latest, anchor, canon and
tail keys all with that block's hash, so all four pointers start equal;
and writing with an unrecognized pointer-kind string yields an error and
returns no state (so nothing is stored). -/
theorem init_sets_all_four_pointers_to_anchor_block (db : EthDb)
    (block : EthBlock) :
    (∃ s1 s2 s3 s4 : EthState,
      set_eth_latest_block_hash_and_return_state ⟨db, some ⟨block⟩⟩ =
          .ok s1 ∧
        set_eth_anchor_block_hash_and_return_state s1 = .ok s2 ∧
        set_eth_canon_block_hash_and_return_state s2 = .ok s3 ∧
        put_eth_tail_block_hash_in_db_and_return_state s3 = .ok s4 ∧
        ethDb_get s4.db .latest_block_hash = some block.hash ∧
        ethDb_get s4.db .canon_block_hash = some block.hash ∧
        ethDb_get s4.db .anchor_block_hash = some block.hash ∧
        ethDb_get s4.db .tail_block_hash = some block.hash) ∧
      ∀ hash_type : String, hash_type ≠ "canon" → hash_type ≠ "latest" →
        hash_type ≠ "anchor" →
        set_hash_from_block_in_state ⟨db, some ⟨block⟩⟩ hash_type =
          .error (.Custom "✘ Hash type not recognized!") := by
  constructor
  · refine ⟨_, _, _, _, rfl, rfl, rfl, rfl, ?_, ?_, ?_, ?_⟩ <;>
      simp [set_eth_latest_block_hash_and_return_state,
        set_eth_anchor_block_hash_and_return_state,
        set_eth_canon_block_hash_and_return_state,
        put_eth_tail_block_hash_in_db_and_return_state,
        set_hash_from_block_in_state, EthState.get_eth_block_and_receipts,
        put_eth_latest_block_hash_in_db, put_eth_canon_block_hash_in_db,
        put_eth_anchor_block_hash_in_db, put_eth_tail_block_hash_in_db,
        ethDb_get, ethDb_put, List.find?]
  · intro hash_type h1 h2 h3
    simp [set_hash_from_block_in_state,
      EthState.get_eth_block_and_receipts, h1, h2, h3]

/-- C9: building an unsigned input, or a UTXO-and-value, from a
transaction output indexes the output list with no bounds check: an index
at or past the number of outputs panics (modelled as none) — the
functions have no error channel — while an in-range index succeeds. -/
theorem unsigned_utxo_creation_panics_iff_index_out_of_bounds
    (txid : BtcTransaction → List Nat)
    (serialize_utxo : BtcUtxo → List Nat) (tx : BtcTransaction)
    (output_index : Nat) :
    (tx.output.length ≤ output_index →
      create_unsigned_utxo_from_tx txid tx output_index = none ∧
        create_op_return_btc_utxo_and_value_from_tx_output txid
          serialize_utxo tx output_index = none) ∧
      (output_index < tx.output.length →
        (create_unsigned_utxo_from_tx txid tx output_index).isSome =
            true ∧
          (create_op_return_btc_utxo_and_value_from_tx_output txid
            serialize_utxo tx output_index).isSome = true) := by
  constructor
  · intro h
    have hg : tx.output[output_index]? = none :=
      List.getElem?_eq_none h
    constructor <;>
      simp [create_unsigned_utxo_from_tx,
        create_op_return_btc_utxo_and_value_from_tx_output, hg]
  · intro h
    have hg : tx.output[output_index]? = some tx.output[output_index] :=
      List.getElem?_eq_getElem h
    constructor <;>
      simp [create_unsigned_utxo_from_tx,
        create_op_return_btc_utxo_and_value_from_tx_output, hg]

/-- C10: extracting public-key-hash bytes from a textual address slices
bytes 1 through 20 of the base58 decoding with no length check: whenever
the base58 decode succeeds with fewer than 21 bytes, the slice panics
(modelled as none) instead of returning a malformed-address error. -/
theorem pub_key_hash_slice_panics_on_short_base58
    (from_base58 : String → Except AppError (List Nat))
    (btc_address : String) (decoded : List Nat)
    (hdec : from_base58 btc_address = .ok decoded)
    (hshort : decoded.length < 21) :
    convert_btc_address_to_pub_key_hash_bytes from_base58 btc_address =
      none := by
  rw [convert_btc_address_to_pub_key_hash_bytes, hdec]
  exact if_neg (Nat.not_le.mpr hshort)

/-! ## Witnesses: the hypothesis-bearing theorems hold at concrete
inputs -/

/-- A concrete block record (with the block type instantiated as its raw
byte string) used to witness the round-trip theorem. -/
def sample_record : BtcBlockInDbFormat (List Nat) :=
  ⟨7, ⟨List.replicate 32 0, by simp⟩, [], [9, 9], [4]⟩

/-- Its serialization envelope under identity-style sample codecs. -/
def sample_envelope : SerializedBlockInDbFormat :=
  serialized_envelope_of (fun b => b) (fun _ => []) sample_record

theorem block_record_roundtrip_witness :
    serialize_btc_block_in_db_format (fun _ => [0]) (fun b => b)
        (fun _ => []) sample_record = .ok (sample_record.id.val, [0]) ∧
      deserialize_btc_block_in_db_format (fun _ => some sample_envelope)
          (fun b => some b) (fun _ => some []) [0] = .ok sample_record := by
  have h := block_record_and_minting_params_roundtrip (fun _ => [0])
    (fun _ => some sample_envelope) (fun b => b) (fun b => some b)
    (fun _ => []) (fun _ => some []) sample_record (by decide) rfl rfl rfl
  exact ⟨h.1, h.2.1⟩

theorem network_codec_fallback_witness :
    convert_bytes_to_btc_network (convert_u64_to_bytes 5) = .ok .Bitcoin ∧
      ∃ e, convert_bytes_to_btc_network [1, 2, 3] = .error e := by
  have h := network_codec_roundtrip_and_fallback
  exact ⟨h.2.1 (convert_u64_to_bytes 5) 5 rfl (by decide) (by decide),
    h.2.2 [1, 2, 3] (by decide)⟩

theorem tx_size_and_fee_formula_witness :
    calculate_btc_tx_size 2 3 =
        2 * (148 + PTOKEN_P2SH_SCRIPT_BYTES) + 3 * 34 + 10 + 2 ∧
      calculate_btc_tx_fee 2 3 10 = calculate_btc_tx_size 2 3 * 10 ∧
      calculate_btc_tx_size 1 1 = 193 :=
  tx_size_and_fee_formula 2 3 10 (by decide) (by decide)

theorem init_pointers_witness :
    (∃ s1 s2 s3 s4 : EthState,
      set_eth_latest_block_hash_and_return_state ⟨[], some ⟨⟨[7]⟩⟩⟩ =
          .ok s1 ∧
        set_eth_anchor_block_hash_and_return_state s1 = .ok s2 ∧
        set_eth_canon_block_hash_and_return_state s2 = .ok s3 ∧
        put_eth_tail_block_hash_in_db_and_return_state s3 = .ok s4 ∧
        ethDb_get s4.db .latest_block_hash = some [7] ∧
        ethDb_get s4.db .canon_block_hash = some [7] ∧
        ethDb_get s4.db .anchor_block_hash = some [7] ∧
        ethDb_get s4.db .tail_block_hash = some [7]) ∧
      set_hash_from_block_in_state ⟨[], some ⟨⟨[7]⟩⟩⟩ "tail" =
        .error (.Custom "✘ Hash type not recognized!") := by
  have h := init_sets_all_four_pointers_to_anchor_block [] ⟨[7]⟩
  exact ⟨h.1, h.2 "tail" (by decide) (by decide) (by decide)⟩

theorem unsigned_utxo_out_of_bounds_witness :
    (create_unsigned_utxo_from_tx (fun _ => [9])
        ⟨1, 0, [], [⟨5, ⟨[]⟩⟩]⟩ 3 = none ∧
      create_op_return_btc_utxo_and_value_from_tx_output (fun _ => [9])
        (fun _ => []) ⟨1, 0, [], [⟨5, ⟨[]⟩⟩]⟩ 3 = none) ∧
      ((create_unsigned_utxo_from_tx (fun _ => [9])
          ⟨1, 0, [], [⟨5, ⟨[]⟩⟩]⟩ 0).isSome = true ∧
        (create_op_return_btc_utxo_and_value_from_tx_output (fun _ => [9])
          (fun _ => []) ⟨1, 0, [], [⟨5, ⟨[]⟩⟩]⟩ 0).isSome = true) := by
  have h3 := unsigned_utxo_creation_panics_iff_index_out_of_bounds
    (fun _ => [9]) (fun _ => []) ⟨1, 0, [], [⟨5, ⟨[]⟩⟩]⟩ 3
  have h0 := unsigned_utxo_creation_panics_iff_index_out_of_bounds
    (fun _ => [9]) (fun _ => []) ⟨1, 0, [], [⟨5, ⟨[]⟩⟩]⟩ 0
  exact ⟨h3.1 (by decide), h0.2 (by decide)⟩

theorem pub_key_hash_slice_witness :
    convert_btc_address_to_pub_key_hash_bytes
      (fun _ => .ok [0, 1]) "1abc" = none :=
  pub_key_hash_slice_panics_on_short_base58 (fun _ => .ok [0, 1]) "1abc"
    [0, 1] rfl (by decide)

end PTokens
